import Mathlib

/-!
Shallow embedding of the vote-casting and tally subsystem of the eBoto
election system (packages/api/src/router/election.ts and
packages/db/schema/schema.ts).

Rows of the relevant tables are Lean structures holding the columns the
router reads or writes; the database is a record of lists of rows, and each
tRPC procedure is a function from an input and a database state to either an
error or a new database state.  Timestamps are natural numbers; the nullable
`deleted_at` timestamp columns are embedded as a Boolean `deleted` flag
(the router only ever tests them for null).
-/

namespace Eboto

/-- Row of the `election` table (schema.ts lines 49-70); only the columns the
vote/tally code paths read are carried. -/
structure Election where
  id : String
  slug : String
  start_date : Nat
  end_date : Nat
  deleted : Bool
  deriving Repr, DecidableEq

/-- Row of the `voter` table (schema.ts lines 102-113). -/
structure Voter where
  id : String
  email : String
  election_id : String
  deleted : Bool
  deriving Repr, DecidableEq

/-- Row of the `position` table (schema.ts lines 136-156): `order` has
default-less int column written only with list lengths by the router, `min`
defaults to 0 and `max` to 1. -/
structure Pos where
  id : String
  name : String
  description : Option String
  order : Nat
  min : Nat
  max : Nat
  election_id : String
  deleted : Bool
  deriving Repr, DecidableEq

/-- Row of the `candidate` table (schema.ts lines 158-182); columns used by
the realtime tally path. -/
structure Candidate where
  id : String
  first_name : String
  middle_name : Option String
  last_name : String
  election_id : String
  position_id : String
  partylist_id : String
  deleted : Bool
  deriving Repr, DecidableEq

/-- Row of the `vote` table (schema.ts lines 72-80): `candidate_id` and
`position_id` are both nullable; `voter_id` and `election_id` are not.
The auto-generated `id` and `created_at` columns are never read by the
router and are omitted. -/
structure Vote where
  voter_id : String
  candidate_id : Option String
  position_id : Option String
  election_id : String
  deriving Repr, DecidableEq

/-- Database state: one list of rows per table touched by the embedded
procedures, in table order. -/
structure DB where
  elections : List Election
  voters : List Voter
  positions : List Pos
  candidates : List Candidate
  votes : List Vote
  deriving Repr, DecidableEq

/-- Modelled from the spec: `isElectionOngoing` is implemented in the
`@eboto-mo/constants` package, which is not part of the available source
tree (only its call sites are).  Per spec section 4.1 the current time must
fall within `[start_date, end_date]`, evaluated by true timestamp
comparison, with an optional intra-day voting-hours window ANDed on top.
The `election` table of this code path (schema.ts lines 49-70) declares no
intra-day voting-hours columns, so the optional intra-day window is never
configured here and the test reduces to the calendar range. -/
def isElectionOngoing (now : Nat) (election : Election) : Bool :=
  decide (election.start_date ≤ now) && decide (now ≤ election.end_date)

/-- One entry of the `votes` input array of the `vote` mutation
(election.ts lines 147-152): a position id and the list of selections for
that position, each selection being a candidate id or the sentinel
string "abstain". -/
structure BallotPosition where
  position_id : String
  votes : List String
  deriving Repr, DecidableEq

/-- Total number of selections across all positions of a ballot. -/
def totalSelections (ballot : List BallotPosition) : Nat :=
  (ballot.map (fun bp => bp.votes.length)).sum

/-- Rows built by the `vote` mutation's insert (election.ts lines 182-200):
each selection becomes one row; the sentinel "abstain" yields a row with
`position_id` set and no `candidate_id`, any other selection yields a row
with that value as `candidate_id` and no `position_id`; every row carries
the session user's id as `voter_id` and the input election id. -/
def voteRows (voterId electionId : String) (ballot : List BallotPosition) :
    List Vote :=
  (ballot.map (fun bp =>
    bp.votes.map (fun candidate_id =>
      if candidate_id = "abstain" then
        { voter_id := voterId, candidate_id := none,
          position_id := some bp.position_id, election_id := electionId }
      else
        { voter_id := voterId, candidate_id := some candidate_id,
          position_id := none, election_id := electionId }))).flatten

/-- Errors thrown by the `vote` mutation: `notFound` is the TRPCError with
code NOT_FOUND (election.ts line 160), `notOngoing` the UNAUTHORIZED error
with message "Election is not ongoing" (lines 162-166), and `alreadyVoted`
the UNAUTHORIZED error with message "You have already voted in this
election" (lines 176-180). -/
inductive VoteError where
  | notFound
  | notOngoing
  | alreadyVoted
  deriving Repr, DecidableEq

/-- The `vote` mutation (election.ts lines 143-207): find the election by
the input id (no soft-delete filter), reject if absent; reject if
`isElectionOngoing` fails; reject if any vote row for (session user,
election) already exists; otherwise insert one row per selection.  There is
no other check: the voters table is never consulted and the ballot's
content is not compared against the election's positions or candidates. -/
def vote (now : Nat) (db : DB) (userId : String) (electionId : String)
    (ballot : List BallotPosition) : Except VoteError DB :=
  match db.elections.find? (fun e => e.id == electionId) with
  | none => .error .notFound
  | some election =>
    if !isElectionOngoing now election then .error .notOngoing
    else
      let existingVotes := db.votes.filter (fun v =>
        v.voter_id == userId && v.election_id == election.id)
      if existingVotes.length > 0 then .error .alreadyVoted
      else .ok { db with votes := db.votes ++ voteRows userId electionId ballot }

/-- Database state after a `vote` call: the new state on success, the old
state on error (the mutation throws before any write, so a rejected
submission persists nothing). -/
def applyVote (now : Nat) (db : DB) (userId : String) (electionId : String)
    (ballot : List BallotPosition) : DB :=
  match vote now db userId electionId ballot with
  | .ok db' => db'
  | .error _ => db

/-! ### The realtime tally (`getElectionRealtime`, election.ts lines 411-476)

JavaScript `Array.prototype.sort` is guaranteed stable, so the
`.sort((a, b) => b.votes.length - a.votes.length)` call on a position's
candidates realizes the unique stable descending-by-vote-count ordering.
Stable sorting is embedded as insertion sort parameterized by a strict
"must come before" test `lt`: an element is inserted after every earlier
element that strictly precedes it and before the first one that does not,
so ties keep their input order. -/

/-- Insert `a` into `l`, skipping the elements that strictly precede it. -/
def insertSorted (lt : α → α → Bool) (a : α) : List α → List α
  | [] => [a]
  | b :: bs => if lt b a then b :: insertSorted lt a bs else a :: b :: bs

/-- Stable insertion sort with strict precedence test `lt`. -/
def stableSortBy (lt : α → α → Bool) : List α → List α
  | [] => []
  | a :: as => insertSorted lt a (stableSortBy lt as)

/-- One candidate of a position as loaded by the realtime query, paired with
its vote count (the length of its `votes` relation, i.e. the number of vote
rows whose `candidate_id` references it). -/
structure TalliedCandidate where
  cand : Candidate
  voteCount : Nat
  deriving Repr, DecidableEq

/-- Comparator of the candidate sort (election.ts line 458): `x` strictly
precedes `y` exactly when `x` has more votes. -/
def candPrecedes (x y : TalliedCandidate) : Bool :=
  decide (y.voteCount < x.voteCount)

/-- Comparator of the positions query's `orderBy asc(order)` clause
(election.ts line 427). -/
def posPrecedes (x y : Pos) : Bool :=
  decide (x.order < y.order)

/-- Number of vote rows referencing candidate id `cid` (the `votes` relation
of a candidate, with `candidate_id` as its foreign key). -/
def candidateVoteCount (db : DB) (cid : String) : Nat :=
  (db.votes.filter (fun v => v.candidate_id == some cid)).length

/-- Number of vote rows whose `position_id` is `pid` (the `votes` relation of
a position; the relation joins on the `position_id` column of the `vote`
table, the only column of that table referencing a position).  Only
abstention rows carry a `position_id` (see `voteRows`). -/
def positionVoteCount (db : DB) (pid : String) : Nat :=
  (db.votes.filter (fun v => v.position_id == some pid)).length

/-- Candidates of position `p` as loaded by the realtime query's nested
`candidates` relation: candidates whose `position_id` is `p.id`, filtered to
the election and to rows not soft-deleted (election.ts lines 430-435), each
paired with its vote count. -/
def talliedCandidates (db : DB) (e : Election) (p : Pos) :
    List TalliedCandidate :=
  (db.candidates.filter (fun c =>
    c.position_id == p.id && c.election_id == e.id && !c.deleted)).map
    (fun c => { cand := c, voteCount := candidateVoteCount db c.id })

/-- One candidate entry of the realtime result (election.ts lines 459-473):
when the election is ongoing the three name fields are masked. -/
structure RealtimeCandidate where
  id : String
  first_name : String
  last_name : String
  middle_name : Option String
  vote : Nat
  deriving Repr, DecidableEq

/-- The `.map((candidate, index) => ...)` body of election.ts lines 459-474:
mask the names with the positional label when the election is ongoing,
disclose them otherwise; `index` is the 0-based rank after the sort. -/
def maskCandidate (ongoing : Bool) (index : Nat) (t : TalliedCandidate) :
    RealtimeCandidate :=
  { id := t.cand.id
    first_name :=
      if ongoing then "Candidate " ++ toString (index + 1) else t.cand.first_name
    last_name := if ongoing then "" else t.cand.last_name
    middle_name := if ongoing then some "" else t.cand.middle_name
    vote := t.voteCount }

/-- Index-carrying map over the sorted candidates, mirroring the
`(candidate, index)` callback; `i` is the index of the first element. -/
def maskCandidates (ongoing : Bool) : Nat → List TalliedCandidate →
    List RealtimeCandidate
  | _, [] => []
  | i, t :: ts => maskCandidate ongoing i t :: maskCandidates ongoing (i + 1) ts

/-- One position entry of the realtime result (election.ts lines 454-475):
the position's fields with `votes` overridden by the length of its `votes`
relation and `candidates` by the sorted, masked candidate entries. -/
structure RealtimePosition where
  id : String
  name : String
  votes : Nat
  candidates : List RealtimeCandidate
  deriving Repr, DecidableEq

/-- The realtime entry built for one position. -/
def realtimePosition (now : Nat) (db : DB) (e : Election) (p : Pos) :
    RealtimePosition :=
  { id := p.id
    name := p.name
    votes := positionVoteCount db p.id
    candidates :=
      maskCandidates (isElectionOngoing now e) 0
        (stableSortBy candPrecedes (talliedCandidates db e p)) }

/-- The position entries of the realtime result for election `e`: the
election's positions not soft-deleted, ordered ascending by `order`
(election.ts lines 421-427), each mapped to its realtime entry. -/
def realtimePositions (now : Nat) (db : DB) (e : Election) :
    List RealtimePosition :=
  (stableSortBy posPrecedes (db.positions.filter (fun p =>
    p.election_id == e.id && !p.deleted))).map (realtimePosition now db e)

/-- The `getElectionRealtime` query (election.ts lines 411-476): look the
election up by slug among rows not soft-deleted; `none` embeds the thrown
"Election not found" error. -/
def getElectionRealtime (now : Nat) (db : DB) (slug : String) :
    Option (List RealtimePosition) :=
  (db.elections.find? (fun e => e.slug == slug && !e.deleted)).map
    (realtimePositions now db)

/-! ### Position mutations (election.ts lines 900-984) -/

/-- The `createPosition` mutation (election.ts lines 900-927): count all
position rows of the election (soft-deleted included, and with no filter on
`deleted_at`), then insert a row whose `order` is that count; `min` and
`max` fall back to the schema defaults 0 and 1 when absent.  `newId` stands
for the auto-generated row id. -/
def createPosition (db : DB) (name : String) (min max : Option Nat)
    (electionId : String) (newId : String) : DB :=
  let positionsInDB := db.positions.filter (fun p => p.election_id == electionId)
  { db with positions := db.positions ++
      [{ id := newId, name := name, description := none,
         order := positionsInDB.length, min := min.getD 0, max := max.getD 1,
         election_id := electionId, deleted := false }] }

/-- The `editPosition` mutation (election.ts lines 949-984): count all
position rows of the election, then update the row matching `id` and
`election_id`, setting its `order` to that count; fields passed as `none`
(undefined) are left unchanged by the update. -/
def editPosition (db : DB) (id name : String) (description : Option String)
    (min max : Option Nat) (electionId : String) : DB :=
  let positionsInDB := db.positions.filter (fun p => p.election_id == electionId)
  { db with positions := db.positions.map (fun p =>
      if p.id == id && p.election_id == electionId then
        { p with name := name
                 description := match description with
                   | some d => some d
                   | none => p.description
                 order := positionsInDB.length
                 min := min.getD p.min
                 max := max.getD p.max }
      else p) }

/-- The `deletePosition` mutation (election.ts lines 928-948): soft-delete
the row matching `id` and `election_id`. -/
def deletePosition (db : DB) (id : String) (electionId : String) : DB :=
  { db with positions := db.positions.map (fun p =>
      if p.id == id && p.election_id == electionId then
        { p with deleted := true }
      else p) }

/-! ### Structure of the `vote` handler's data-store calls

Atomicity against concurrent submissions can only come from wrapping the
no-prior-vote check and the insert in one data-store transaction or from a
storage-level uniqueness constraint.  Both are structural facts of the
source, embedded below: the sequence of top-level data-store calls the
`vote` handler issues, and the unique keys the `vote` table declares. -/

/-- Data-store operations issued by the router, with `transaction` grouping
the operations executed inside one `ctx.db.transaction` callback. -/
inductive DbOp where
  | queryElectionsFindFirst
  | queryVotesFindMany
  | insertVotes
  | insertElections
  | insertCommissioners
  | insertPartylists
  | insertPositions
  | transaction (ops : List DbOp)

/-- Top-level data-store calls of the `vote` mutation in source order
(election.ts lines 155-200): the election findFirst, the existing-votes
findMany, and the insert into `votes` - each a direct `ctx.db` call, none
wrapped in `ctx.db.transaction`. -/
def voteHandlerOps : List DbOp :=
  [.queryElectionsFindFirst, .queryVotesFindMany, .insertVotes]

/-- Top-level data-store calls of `createElection` (election.ts lines
635-687) by contrast: its compound insert runs inside
`ctx.db.transaction`. -/
def createElectionOps : List DbOp :=
  [.queryElectionsFindFirst,
   .transaction [.insertElections, .insertCommissioners, .insertPartylists,
     .insertPositions]]

/-- Two operations of a handler run inside the same transaction when some
`transaction` group of its call list contains both. -/
def opsInSameTransaction (a b : DbOp) (ops : List DbOp) : Prop :=
  ∃ l, DbOp.transaction l ∈ ops ∧ a ∈ l ∧ b ∈ l

/-- Unique keys declared on the `vote` table (schema.ts lines 19-23 and
72-80): only the shared `id` column is declared `.primaryKey().unique()`;
no key, unique or otherwise, is declared on any other column or column
combination. -/
def votesTableUniqueKeys : List (List String) :=
  [["id"]]

/-! ### Claim-side definition for comparison

The spec describes the per-position total of the realtime result as the
abstention-inclusive ballot count.  The next definition follows those words
rather than the source, so the two can be compared. -/

/-- Definition following the claim's words, not the source: the
abstention-inclusive ballot count of a position - the number of vote rows
that are either votes for one of the position's candidates or explicit
abstentions carrying the position's id. -/
def claimedPositionTotal (db : DB) (p : Pos) : Nat :=
  (db.votes.filter (fun v =>
    v.position_id == some p.id ||
      (db.candidates.filter (fun c => c.position_id == p.id)).any
        (fun c => v.candidate_id == some c.id))).length

/-! ### Invariants about position display orders -/

/-- Display orders of the election's position rows are pairwise distinct. -/
def ordersDistinct (db : DB) (electionId : String) : Prop :=
  (db.positions.filter (fun p => p.election_id == electionId)).Pairwise
    (fun p q => p.order ≠ q.order)

/-- Every display order of the election's position rows is below the number
of those rows (holds for the contiguous 0..n-1 assignment produced by
creations). -/
def ordersBounded (db : DB) (electionId : String) : Prop :=
  ∀ p ∈ db.positions.filter (fun p => p.election_id == electionId),
    p.order < (db.positions.filter (fun p => p.election_id == electionId)).length

/-! ### Concrete fixtures used by witnesses and counterexamples -/

/-- Fixture: an election whose voting window is `[10, 20]`. -/
def exElection : Election :=
  { id := "e1", slug := "s1", start_date := 10, end_date := 20, deleted := false }

/-- Fixture: a database holding only `exElection`: no registered voter, no
position, no candidate, no vote row. -/
def exDB : DB :=
  { elections := [exElection], voters := [], positions := [], candidates := [],
    votes := [] }

/-- Fixture: a two-position ballot with one candidate selection and one
abstention. -/
def exBallot : List BallotPosition :=
  [{ position_id := "p1", votes := ["c1"] },
   { position_id := "p2", votes := ["abstain"] }]

/-- Fixture: a ballot naming a position id and candidate ids that exist
nowhere, with three selections for its single position. -/
def exGhostBallot : List BallotPosition :=
  [⟨"ghost-position", ["ghost-cand-1", "ghost-cand-2", "abstain"]⟩]

/-- Fixture: the database after user userX successfully submits `exBallot`
to election e1 at time 15. -/
def exDB1 : DB :=
  { exDB with votes := voteRows "userX" "e1" exBallot }

/-- Fixture: the election row of `exTallyDB`. -/
def exTallyElection : Election :=
  ⟨"e2", "s2", 10, 20, false⟩

/-- Fixture: `n` vote rows for candidate id `cid` in election e2, from
distinct voters. -/
def exVotesFor (cid : String) (n : Nat) : List Vote :=
  (List.range n).map (fun i =>
    { voter_id := "v_" ++ cid ++ toString i, candidate_id := some cid,
      position_id := none, election_id := "e2" })

/-- Fixture: the position row of election e2 whose realtime tally the
witnesses inspect. -/
def exTallyPos : Pos :=
  ⟨"p1", "President", none, 0, 0, 1, "e2", false⟩

/-- Fixture: election e2 (window `[10, 20]`) with one position and three
candidates A, B, C receiving 5, 9 and 9 votes respectively (the ranking
example of the spec), plus one abstention row for the position.  Candidate
fields in constructor order: id, first_name, middle_name, last_name,
election_id, position_id, partylist_id, deleted. -/
def exTallyDB : DB :=
  ⟨[exTallyElection], [], [exTallyPos],
    [⟨"A", "Alice", some "M", "Smith", "e2", "p1", "pl", false⟩,
     ⟨"B", "Bob", none, "Jones", "e2", "p1", "pl", false⟩,
     ⟨"C", "Carol", none, "Lee", "e2", "p1", "pl", false⟩],
    exVotesFor "A" 5 ++ exVotesFor "B" 9 ++ exVotesFor "C" 9 ++
      [⟨"vz", none, some "p1", "e2"⟩]⟩

/-- Fixture: the position row the C7 comparison is about. -/
def exC7Pos : Pos :=
  ⟨"p7", "Pres", none, 0, 0, 1, "e7", false⟩

/-- Fixture: election e7 with one position, one candidate and a single vote
row referencing the candidate (so the position's abstention count is 0 while
its abstention-inclusive ballot count is 1). -/
def exC7DB : DB :=
  ⟨[⟨"e7", "s7", 10, 20, false⟩], [], [exC7Pos],
    [⟨"c7", "Cay", none, "Seven", "e7", "p7", "pl", false⟩],
    [⟨"v7", some "c7", none, "e7"⟩]⟩

/-- Fixture: a database with two positions of election e3 whose orders are 0
and 1.  Position fields in constructor order: id, name, description, order,
min, max, election_id, deleted. -/
def exPosDB : DB :=
  ⟨[], [],
    [⟨"PA", "Pres", none, 0, 0, 1, "e3", false⟩,
     ⟨"PB", "VP", none, 1, 0, 1, "e3", false⟩],
    [], []⟩

/-! ## Helper lemmas -/

theorem mem_insertSorted {lt : α → α → Bool} {a x : α} {l : List α} :
    x ∈ insertSorted lt a l ↔ x = a ∨ x ∈ l := by
  induction l with
  | nil => simp [insertSorted]
  | cons b bs ih =>
    simp only [insertSorted]
    split
    · simp only [List.mem_cons, ih]
      tauto
    · simp [List.mem_cons]

theorem mem_stableSortBy {lt : α → α → Bool} {x : α} {l : List α} :
    x ∈ stableSortBy lt l ↔ x ∈ l := by
  induction l with
  | nil => simp [stableSortBy]
  | cons a as ih => simp [stableSortBy, mem_insertSorted, ih]

theorem pairwise_insertSorted_cand {a : TalliedCandidate}
    {l : List TalliedCandidate}
    (h : l.Pairwise (fun x y => y.voteCount ≤ x.voteCount)) :
    (insertSorted candPrecedes a l).Pairwise
      (fun x y => y.voteCount ≤ x.voteCount) := by
  induction l with
  | nil => simp [insertSorted]
  | cons b bs ih =>
    rw [List.pairwise_cons] at h
    obtain ⟨hb, hbs⟩ := h
    simp only [insertSorted]
    split
    case isTrue hlt =>
      rw [List.pairwise_cons]
      refine ⟨?_, ih hbs⟩
      intro x hx
      rcases mem_insertSorted.mp hx with rfl | hx
      · exact le_of_lt (by simpa [candPrecedes] using hlt)
      · exact hb x hx
    case isFalse hlt =>
      rw [List.pairwise_cons]
      refine ⟨?_, List.pairwise_cons.mpr ⟨hb, hbs⟩⟩
      intro x hx
      rcases List.mem_cons.mp hx with rfl | hx
      · exact le_of_not_lt (by simpa [candPrecedes] using hlt)
      · exact le_trans (hb x hx) (le_of_not_lt (by simpa [candPrecedes] using hlt))

theorem pairwise_stableSortBy_cand (l : List TalliedCandidate) :
    (stableSortBy candPrecedes l).Pairwise
      (fun x y => y.voteCount ≤ x.voteCount) := by
  induction l with
  | nil => simp [stableSortBy]
  | cons a as ih => exact pairwise_insertSorted_cand ih

theorem filter_insertSorted_cand (k : Nat) (a : TalliedCandidate)
    (l : List TalliedCandidate) :
    (insertSorted candPrecedes a l).filter (fun t => t.voteCount == k) =
      (if a.voteCount == k then [a] else []) ++
        l.filter (fun t => t.voteCount == k) := by
  induction l with
  | nil =>
    cases hb : (a.voteCount == k) <;> simp [insertSorted, List.filter, hb]
  | cons b bs ih =>
    simp only [insertSorted]
    split
    case isTrue hlt =>
      by_cases hpa : a.voteCount = k
      · have hpb : ¬ b.voteCount = k := by
          have : a.voteCount < b.voteCount := by simpa [candPrecedes] using hlt
          omega
        simp [List.filter_cons, hpa, hpb, ih]
      · simp [List.filter_cons, hpa, ih]
    case isFalse hlt =>
      by_cases hpa : a.voteCount = k
      · simp [List.filter_cons, hpa]
      · simp [List.filter_cons, hpa]

theorem filter_stableSortBy_cand (k : Nat) (l : List TalliedCandidate) :
    (stableSortBy candPrecedes l).filter (fun t => t.voteCount == k) =
      l.filter (fun t => t.voteCount == k) := by
  induction l with
  | nil => rfl
  | cons a as ih =>
    simp only [stableSortBy, filter_insertSorted_cand, ih, List.filter_cons]
    by_cases hpa : a.voteCount = k
    · simp [hpa]
    · simp [hpa]

theorem length_maskCandidates (b : Bool) (n : Nat)
    (l : List TalliedCandidate) :
    (maskCandidates b n l).length = l.length := by
  induction l generalizing n with
  | nil => rfl
  | cons t ts ih => simp [maskCandidates, ih]

theorem get_maskCandidates (b : Bool) (n : Nat) (l : List TalliedCandidate)
    (i : Nat) (h : i < (maskCandidates b n l).length)
    (h' : i < l.length) :
    (maskCandidates b n l).get ⟨i, h⟩ =
      maskCandidate b (n + i) (l.get ⟨i, h'⟩) := by
  induction l generalizing n i with
  | nil => exact absurd h' (by simp)
  | cons t ts ih =>
    cases i with
    | zero => rfl
    | succ j =>
      have hj : j < (maskCandidates b (n + 1) ts).length := by
        simpa [maskCandidates] using h
      have hj' : j < ts.length := by simpa using h'
      show (maskCandidates b (n + 1) ts).get ⟨j, hj⟩ = _
      rw [ih (n + 1) j hj hj']
      congr 1
      omega

theorem map_vote_maskCandidates (b : Bool) (n : Nat)
    (l : List TalliedCandidate) :
    (maskCandidates b n l).map (fun c => c.vote) =
      l.map (fun t => t.voteCount) := by
  induction l generalizing n with
  | nil => rfl
  | cons t ts ih => simp [maskCandidates, maskCandidate, ih]

theorem filter_map_id_maskCandidates (b : Bool) (n k : Nat)
    (l : List TalliedCandidate) :
    ((maskCandidates b n l).filter (fun c => c.vote == k)).map (fun c => c.id) =
      (l.filter (fun t => t.voteCount == k)).map (fun t => t.cand.id) := by
  induction l generalizing n with
  | nil => rfl
  | cons t ts ih =>
    by_cases hk : t.voteCount = k
    · simp [maskCandidates, maskCandidate, List.filter_cons, hk, ih]
    · simp [maskCandidates, maskCandidate, List.filter_cons, hk, ih]

theorem length_voteRows (v e : String) (ballot : List BallotPosition) :
    (voteRows v e ballot).length = totalSelections ballot := by
  simp only [voteRows, totalSelections, List.length_flatten, List.map_map]
  congr 1
  apply List.map_congr_left
  intro bp _
  simp [Function.comp]

theorem voteRows_ne_nil {v e : String} {ballot : List BallotPosition}
    (h : 0 < totalSelections ballot) : voteRows v e ballot ≠ [] := by
  intro hnil
  have hlen := length_voteRows v e ballot
  rw [hnil] at hlen
  simp at hlen
  omega

theorem mem_voteRows {r : Vote} {v e : String} {ballot : List BallotPosition}
    (h : r ∈ voteRows v e ballot) :
    r.voter_id = v ∧ r.election_id = e ∧
      ((r.candidate_id = none ∧ ∃ bp ∈ ballot, "abstain" ∈ bp.votes ∧
          r.position_id = some bp.position_id) ∨
       (r.position_id = none ∧ ∃ bp ∈ ballot, ∃ sel ∈ bp.votes,
          sel ≠ "abstain" ∧ r.candidate_id = some sel)) := by
  simp only [voteRows, List.mem_flatten, List.mem_map] at h
  obtain ⟨rows, ⟨bp, hbp, rfl⟩, hr⟩ := h
  obtain ⟨sel, hsel, hrsel⟩ := List.mem_map.mp hr
  by_cases habs : sel = "abstain"
  · rw [if_pos habs] at hrsel
    subst hrsel
    refine ⟨rfl, rfl, Or.inl ⟨rfl, bp, hbp, ?_, rfl⟩⟩
    rw [habs] at hsel
    exact hsel
  · rw [if_neg habs] at hrsel
    subst hrsel
    exact ⟨rfl, rfl, Or.inr ⟨rfl, bp, hbp, sel, hsel, habs, rfl⟩⟩

theorem filter_voteRows_self (v e : String) (ballot : List BallotPosition) :
    (voteRows v e ballot).filter
      (fun r => r.voter_id == v && r.election_id == e) =
      voteRows v e ballot := by
  apply List.filter_eq_self.mpr
  intro r hr
  have h := mem_voteRows hr
  simp [h.1, h.2.1]

theorem vote_ok_inv {now : Nat} {db : DB} {userId electionId : String}
    {ballot : List BallotPosition} {db' : DB}
    (h : vote now db userId electionId ballot = .ok db') :
    ∃ e, db.elections.find? (fun x => x.id == electionId) = some e ∧
      e.id = electionId ∧
      isElectionOngoing now e = true ∧
      db.votes.filter (fun r => r.voter_id == userId &&
        r.election_id == e.id) = [] ∧
      db' = { db with votes := db.votes ++ voteRows userId electionId ballot } := by
  unfold vote at h
  split at h
  next => exact absurd h (by simp)
  next e heq =>
    have heid : e.id = electionId := by simpa using List.find?_some heq
    refine ⟨e, heq, heid, ?_⟩
    dsimp only at h
    split at h
    next => exact absurd h (by simp)
    next hcond =>
      have hon : isElectionOngoing now e = true := by
        revert hcond
        cases isElectionOngoing now e <;> simp
      split at h
      next => exact absurd h (by simp)
      next hlen =>
        have hfresh : db.votes.filter (fun r => r.voter_id == userId &&
            r.election_id == e.id) = [] :=
          List.length_eq_zero.mp (by omega)
        refine ⟨hon, hfresh, ?_⟩
        cases h
        rfl

theorem vote_ok_of (now : Nat) (db : DB) (userId electionId : String)
    (ballot : List BallotPosition) (e : Election)
    (hfind : db.elections.find? (fun x => x.id == electionId) = some e)
    (hon : isElectionOngoing now e = true)
    (hfresh : db.votes.filter (fun r => r.voter_id == userId &&
      r.election_id == e.id) = []) :
    vote now db userId electionId ballot =
      .ok { db with votes := db.votes ++ voteRows userId electionId ballot } := by
  unfold vote
  rw [hfind]
  simp [hon, hfresh]

theorem vote_notOngoing_of (now : Nat) (db : DB) (userId electionId : String)
    (ballot : List BallotPosition) (e : Election)
    (hfind : db.elections.find? (fun x => x.id == electionId) = some e)
    (hon : isElectionOngoing now e = false) :
    vote now db userId electionId ballot = .error .notOngoing := by
  unfold vote
  rw [hfind]
  simp [hon]

theorem getElectionRealtime_inv {now : Nat} {db : DB} {slug : String}
    {res : List RealtimePosition}
    (h : getElectionRealtime now db slug = some res) :
    ∃ e, db.elections.find? (fun x => x.slug == slug && !x.deleted) = some e ∧
      res = realtimePositions now db e := by
  unfold getElectionRealtime at h
  cases hfind : db.elections.find? (fun x => x.slug == slug && !x.deleted) with
  | none => rw [hfind] at h; exact absurd h (by simp)
  | some e =>
    rw [hfind] at h
    exact ⟨e, rfl, (Option.some.injEq _ _).mp h.symm⟩

theorem mem_realtimePositions {now : Nat} {db : DB} {e : Election}
    {entry : RealtimePosition}
    (h : entry ∈ realtimePositions now db e) :
    ∃ p, p ∈ db.positions ∧ p.election_id = e.id ∧ p.deleted = false ∧
      entry = realtimePosition now db e p := by
  unfold realtimePositions at h
  obtain ⟨p, hp, rfl⟩ := List.mem_map.mp h
  have hmem := mem_stableSortBy.mp hp
  have hfil := List.mem_filter.mp hmem
  have hcond := hfil.2
  simp only [Bool.and_eq_true, beq_iff_eq, Bool.not_eq_true'] at hcond
  exact ⟨p, hfil.1, hcond.1, hcond.2, rfl⟩

theorem realtime_candidate_entry (now : Nat) (db : DB) (e : Election)
    (p : Pos) (i : Nat)
    (hi : i < (realtimePosition now db e p).candidates.length) :
    ∃ c, c ∈ db.candidates ∧ c.position_id = p.id ∧
      c.election_id = e.id ∧ c.deleted = false ∧
      (realtimePosition now db e p).candidates.get ⟨i, hi⟩ =
        maskCandidate (isElectionOngoing now e) i
          { cand := c, voteCount := candidateVoteCount db c.id } := by
  have hlen : (realtimePosition now db e p).candidates.length =
      (stableSortBy candPrecedes (talliedCandidates db e p)).length := by
    show (maskCandidates _ 0 _).length = _
    exact length_maskCandidates _ _ _
  have hi' : i < (stableSortBy candPrecedes (talliedCandidates db e p)).length := by
    omega
  have hget : (realtimePosition now db e p).candidates.get ⟨i, hi⟩ =
      maskCandidate (isElectionOngoing now e) (0 + i)
        ((stableSortBy candPrecedes (talliedCandidates db e p)).get ⟨i, hi'⟩) :=
    get_maskCandidates _ _ _ _ _ _
  set t := (stableSortBy candPrecedes (talliedCandidates db e p)).get ⟨i, hi'⟩
    with ht
  have htmem : t ∈ talliedCandidates db e p :=
    mem_stableSortBy.mp (List.get_mem _ _ hi')
  unfold talliedCandidates at htmem
  obtain ⟨c, hc, hct⟩ := List.mem_map.mp htmem
  have hcf := List.mem_filter.mp hc
  have hcond := hcf.2
  simp only [Bool.and_eq_true, beq_iff_eq, Bool.not_eq_true'] at hcond
  refine ⟨c, hcf.1, hcond.1.1, hcond.1.2, hcond.2, ?_⟩
  rw [hget, ← hct]
  congr 1
  omega

/-! ## Claim theorems -/

/-- Claim C1: for every accepted ballot submission with n total selections
across its positions, the vote operation persists exactly n Vote rows - an
"abstain" selection yields a row carrying the position id and no candidate
id, any other selection yields a row carrying that value as candidate id and
no position id, and every row carries the submitting voter's id and the
election id; a rejected submission persists zero Vote rows. -/
theorem claim1_vote_persists_selections (now : Nat) (db : DB)
    (userId electionId : String) (ballot : List BallotPosition) :
    (∀ db', vote now db userId electionId ballot = .ok db' →
      db'.votes = db.votes ++ voteRows userId electionId ballot ∧
      (voteRows userId electionId ballot).length = totalSelections ballot ∧
      ∀ r ∈ voteRows userId electionId ballot,
        r.voter_id = userId ∧ r.election_id = electionId ∧
          ((r.candidate_id = none ∧ ∃ bp ∈ ballot, "abstain" ∈ bp.votes ∧
              r.position_id = some bp.position_id) ∨
           (r.position_id = none ∧ ∃ bp ∈ ballot, ∃ sel ∈ bp.votes,
              sel ≠ "abstain" ∧ r.candidate_id = some sel))) ∧
    (∀ err, vote now db userId electionId ballot = .error err →
      applyVote now db userId electionId ballot = db) := by
  constructor
  · intro db' hok
    obtain ⟨e, hfind, heid, hon, hfresh, rfl⟩ := vote_ok_inv hok
    exact ⟨rfl, length_voteRows _ _ _, fun r hr => mem_voteRows hr⟩
  · intro err herr
    unfold applyVote
    rw [herr]

/-- Witness for C1: at time 15 inside the window of election e1, the
two-selection ballot `exBallot` is accepted, its two rows are appended, and
at time 25 outside the window the submission is rejected with the database
unchanged. -/
theorem claim1_witness :
    vote 15 exDB "userX" "e1" exBallot = .ok exDB1 ∧
    exDB1.votes = exDB.votes ++ voteRows "userX" "e1" exBallot ∧
    (voteRows "userX" "e1" exBallot).length = totalSelections exBallot ∧
    vote 25 exDB "userX" "e1" exBallot = .error .notOngoing ∧
    applyVote 25 exDB "userX" "e1" exBallot = exDB :=
  ⟨rfl,
   ((claim1_vote_persists_selections 15 exDB "userX" "e1" exBallot).1
     exDB1 rfl).1,
   ((claim1_vote_persists_selections 15 exDB "userX" "e1" exBallot).1
     exDB1 rfl).2.1,
   rfl,
   (claim1_vote_persists_selections 25 exDB "userX" "e1" exBallot).2
     .notOngoing rfl⟩

/-- Claim C2: after a successful (non-empty) ballot submission for
(election, voter), a second submission for the same pair is rejected with
the AlreadyVoted error - the UNAUTHORIZED "You have already voted in this
election" throw - because prior Vote rows now exist, and it adds no Vote
rows; so two sequential submissions succeed exactly once. -/
theorem claim2_second_vote_already_voted (now : Nat) (db db1 : DB)
    (userId electionId : String) (b1 b2 : List BallotPosition)
    (h1 : vote now db userId electionId b1 = .ok db1)
    (hn : 0 < totalSelections b1) :
    vote now db1 userId electionId b2 = .error .alreadyVoted ∧
      applyVote now db1 userId electionId b2 = db1 := by
  obtain ⟨e, hfind, heid, hon, hfresh, rfl⟩ := vote_ok_inv h1
  have hfind1 : ({ db with
      votes := db.votes ++ voteRows userId electionId b1 } : DB).elections.find?
      (fun x => x.id == electionId) = some e := hfind
  have hvotes : (db.votes ++ voteRows userId electionId b1).filter
      (fun r => r.voter_id == userId && r.election_id == e.id) =
      voteRows userId electionId b1 := by
    rw [List.filter_append, hfresh, List.nil_append, heid,
      filter_voteRows_self]
  have hlen : 0 < (voteRows userId electionId b1).length :=
    List.length_pos.mpr (voteRows_ne_nil hn)
  have hv2 : vote now { db with
      votes := db.votes ++ voteRows userId electionId b1 } userId electionId
      b2 = .error .alreadyVoted := by
    unfold vote
    rw [hfind1]
    dsimp only
    rw [if_neg (by simp [hon])]
    rw [hvotes]
    rw [if_pos hlen]
  exact ⟨hv2, by unfold applyVote; rw [hv2]⟩

/-- Witness for C2: user userX submits `exBallot` to election e1 at time 15
successfully; the immediate second submission returns AlreadyVoted and
leaves the database unchanged. -/
theorem claim2_witness :
    vote 15 exDB "userX" "e1" exBallot = .ok exDB1 ∧
    0 < totalSelections exBallot ∧
    vote 15 exDB1 "userX" "e1" exBallot = .error .alreadyVoted ∧
    applyVote 15 exDB1 "userX" "e1" exBallot = exDB1 :=
  ⟨rfl, by decide,
   (claim2_second_vote_already_voted 15 exDB exDB1 "userX" "e1" exBallot
     exBallot rfl (by decide)).1,
   (claim2_second_vote_already_voted 15 exDB exDB1 "userX" "e1" exBallot
     exBallot rfl (by decide)).2⟩

/-- Claim C3: a ballot submitted for an existing election while the current
time lies outside the `[start_date, end_date]` window (the intra-day
voting-hours clause is vacuous: this schema declares no voting-hours
columns, so the window is never configured) is rejected with the NotOngoing
error regardless of the ballot's content, and no Vote rows are written. -/
theorem claim3_not_ongoing_rejected (now : Nat) (db : DB)
    (userId electionId : String) (ballot : List BallotPosition) (e : Election)
    (hfind : db.elections.find? (fun x => x.id == electionId) = some e)
    (hout : now < e.start_date ∨ e.end_date < now) :
    vote now db userId electionId ballot = .error .notOngoing ∧
      applyVote now db userId electionId ballot = db := by
  have hon : isElectionOngoing now e = false := by
    unfold isElectionOngoing
    rcases hout with h | h
    · have hs : decide (e.start_date ≤ now) = false := by
        simp only [decide_eq_false_iff_not]
        omega
      simp [hs]
    · have hs : decide (now ≤ e.end_date) = false := by
        simp only [decide_eq_false_iff_not]
        omega
      simp [hs]
  have h := vote_notOngoing_of now db userId electionId ballot e hfind hon
  exact ⟨h, by unfold applyVote; rw [h]⟩

/-- Witness for C3: at time 25, past election e1's end date 20, the ballot
is rejected as NotOngoing and the database is unchanged. -/
theorem claim3_witness :
    exDB.elections.find? (fun x => x.id == "e1") = some exElection ∧
    (25 < exElection.start_date ∨ exElection.end_date < 25) ∧
    vote 25 exDB "userX" "e1" exBallot = .error .notOngoing ∧
    applyVote 25 exDB "userX" "e1" exBallot = exDB :=
  ⟨rfl, by decide,
   (claim3_not_ongoing_rejected 25 exDB "userX" "e1" exBallot exElection rfl
     (by decide)).1,
   (claim3_not_ongoing_rejected 25 exDB "userX" "e1" exBallot exElection rfl
     (by decide)).2⟩

/-- Claim C10: the vote operation performs no validation of the ballot's
content against the election's configuration - for every well-typed
selections list submitted while the election is ongoing by a caller with no
prior Vote rows, the operation succeeds and inserts one row per selection
(the ballot variable below is fully unconstrained: its position ids and
candidate ids need not exist, may be soft-deleted or belong to another
election, and the per-position selection counts are unrestricted). -/
theorem claim10_no_content_validation (now : Nat) (db : DB)
    (userId electionId : String) (ballot : List BallotPosition) (e : Election)
    (hfind : db.elections.find? (fun x => x.id == electionId) = some e)
    (hon : isElectionOngoing now e = true)
    (hfresh : db.votes.filter (fun r => r.voter_id == userId &&
      r.election_id == e.id) = []) :
    vote now db userId electionId ballot =
      .ok { db with votes := db.votes ++ voteRows userId electionId ballot } ∧
    (db.votes ++ voteRows userId electionId ballot).length =
      db.votes.length + totalSelections ballot := by
  refine ⟨vote_ok_of now db userId electionId ballot e hfind hon hfresh, ?_⟩
  rw [List.length_append, length_voteRows]

/-- Witness for C10: a ballot naming a position id and candidate ids that
exist nowhere in the database, with three selections for one position
(exceeding any max), is accepted against the position-less, candidate-less
election e1 and three rows are inserted. -/
theorem claim10_witness :
    exDB.elections.find? (fun x => x.id == "e1") = some exElection ∧
    isElectionOngoing 15 exElection = true ∧
    exDB.votes.filter (fun r => r.voter_id == "userX" &&
      r.election_id == exElection.id) = [] ∧
    (vote 15 exDB "userX" "e1" exGhostBallot =
      .ok { exDB with
        votes := exDB.votes ++ voteRows "userX" "e1" exGhostBallot } ∧
    (exDB.votes ++ voteRows "userX" "e1" exGhostBallot).length =
      exDB.votes.length + totalSelections exGhostBallot) :=
  ⟨rfl, rfl, rfl,
   claim10_no_content_validation 15 exDB "userX" "e1" exGhostBallot
     exElection rfl rfl rfl⟩

/-- Counterexample to C4: in database `exDB` the voters table is empty, so
the caller "outsider" is not a registered voter of election e1; yet the
submission inside the window succeeds (no Unauthorized error) and two Vote
rows are recorded. -/
theorem claim4_counterexample :
    exDB.voters = [] ∧
    (vote 15 exDB "outsider" "e1" exBallot).isOk = true ∧
    (applyVote 15 exDB "outsider" "e1" exBallot).votes =
      [⟨"outsider", some "c1", none, "e1"⟩,
       ⟨"outsider", none, some "p2", "e1"⟩] :=
  ⟨rfl, rfl, rfl⟩

/-- Claim C4 as amended: the vote operation performs no check of the
caller against the voters table - whether or not any voter row for the
election exists, a submission by a caller with no prior Vote rows inside
the voting window succeeds and records its rows (the registration
hypothesis below is deliberately unused by the operation). -/
theorem claim4_amended_no_registration_check (now : Nat) (db : DB)
    (userId electionId : String) (ballot : List BallotPosition) (e : Election)
    (hfind : db.elections.find? (fun x => x.id == electionId) = some e)
    (hon : isElectionOngoing now e = true)
    (hfresh : db.votes.filter (fun r => r.voter_id == userId &&
      r.election_id == e.id) = [])
    (_hnotvoter : ∀ v ∈ db.voters, v.election_id ≠ electionId) :
    vote now db userId electionId ballot =
      .ok { db with votes := db.votes ++ voteRows userId electionId ballot } :=
  vote_ok_of now db userId electionId ballot e hfind hon hfresh

/-- Witness for C4's amended claim: the unregistered caller "outsider"
submits to election e1 at time 15 and the submission succeeds. -/
theorem claim4_witness :
    exDB.elections.find? (fun x => x.id == "e1") = some exElection ∧
    isElectionOngoing 15 exElection = true ∧
    exDB.votes.filter (fun r => r.voter_id == "outsider" &&
      r.election_id == exElection.id) = [] ∧
    (∀ v ∈ exDB.voters, v.election_id ≠ "e1") ∧
    vote 15 exDB "outsider" "e1" exBallot =
      .ok { exDB with votes := exDB.votes ++ voteRows "outsider" "e1" exBallot } :=
  ⟨rfl, rfl, rfl, by simp [exDB],
   claim4_amended_no_registration_check 15 exDB "outsider" "e1" exBallot
     exElection rfl rfl rfl (by simp [exDB])⟩

/-- Counterexample to C5: in the `vote` handler no `ctx.db.transaction`
call wraps the no-prior-vote check and the insert - its three data-store
calls are all top-level - and the `vote` table declares no uniqueness
constraint on (voter_id, election_id) (its only unique key is the `id`
primary key). -/
theorem claim5_counterexample :
    ¬ opsInSameTransaction DbOp.queryVotesFindMany DbOp.insertVotes
        voteHandlerOps ∧
    ["voter_id", "election_id"] ∉ votesTableUniqueKeys := by
  constructor
  · rintro ⟨l, hl, -, -⟩
    simp [voteHandlerOps] at hl
  · decide

/-- Claim C5 as amended: the check and the insert are issued as separate
top-level operations with no transaction and no storage-layer uniqueness
constraint on (voter_id, election_id); under the sequential per-request
semantics of this model a voter's second submission after a successful
non-empty one can never succeed (at any later time and with any ballot),
but no storage-layer mechanism enforces this under concurrent
interleaving. -/
theorem claim5_amended_sequential_at_most_once (now now2 : Nat) (db db1 : DB)
    (userId electionId : String) (b1 b2 : List BallotPosition)
    (h1 : vote now db userId electionId b1 = .ok db1)
    (hn : 0 < totalSelections b1) :
    ∀ db2, vote now2 db1 userId electionId b2 ≠ .ok db2 := by
  intro db2 h2
  obtain ⟨e, hfind, heid, hon, hfresh, rfl⟩ := vote_ok_inv h1
  obtain ⟨e2, hfind2, heid2, hon2, hfresh2, -⟩ := vote_ok_inv h2
  have hfresh2a : (db.votes ++ voteRows userId electionId b1).filter
      (fun r => r.voter_id == userId && r.election_id == e2.id) = [] := hfresh2
  rw [heid2, List.filter_append, filter_voteRows_self] at hfresh2a
  exact voteRows_ne_nil hn (List.append_eq_nil.mp hfresh2a).2

/-- Witness for C5's amended claim: after userX's successful submission at
time 15, a second submission at time 16 cannot succeed. -/
theorem claim5_witness :
    vote 15 exDB "userX" "e1" exBallot = .ok exDB1 ∧
    0 < totalSelections exBallot ∧
    vote 16 exDB1 "userX" "e1" exBallot ≠ .ok exDB1 :=
  ⟨rfl, by decide,
   claim5_amended_sequential_at_most_once 15 16 exDB exDB1 "userX" "e1"
     exBallot exBallot rfl (by decide) exDB1⟩

/-- Claim C6: every candidate entry of the realtime result corresponds to a
candidate row; while the election is ongoing its first name is the
positional label "Candidate k" (k the 1-based rank after the
descending-vote sort) and its middle and last names are empty, while the
vote count is still returned; when the election is not ongoing the
candidate's real first, middle and last names are returned. -/
theorem claim6_disclosure (now : Nat) (db : DB) (slug : String)
    (res : List RealtimePosition) (entry : RealtimePosition) (i : Nat)
    (h : getElectionRealtime now db slug = some res)
    (hentry : entry ∈ res) (hi : i < entry.candidates.length) :
    ∃ e, db.elections.find? (fun x => x.slug == slug && !x.deleted) = some e ∧
      ∃ c ∈ db.candidates,
        (entry.candidates.get ⟨i, hi⟩).id = c.id ∧
        (entry.candidates.get ⟨i, hi⟩).vote = candidateVoteCount db c.id ∧
        (isElectionOngoing now e = true →
          (entry.candidates.get ⟨i, hi⟩).first_name =
              "Candidate " ++ toString (i + 1) ∧
            (entry.candidates.get ⟨i, hi⟩).last_name = "" ∧
            (entry.candidates.get ⟨i, hi⟩).middle_name = some "") ∧
        (isElectionOngoing now e = false →
          (entry.candidates.get ⟨i, hi⟩).first_name = c.first_name ∧
            (entry.candidates.get ⟨i, hi⟩).last_name = c.last_name ∧
            (entry.candidates.get ⟨i, hi⟩).middle_name = c.middle_name) := by
  obtain ⟨e, hfind, rfl⟩ := getElectionRealtime_inv h
  obtain ⟨p, hp, hpe, hpd, rfl⟩ := mem_realtimePositions hentry
  obtain ⟨c, hc, hcp, hce, hcd, hget⟩ := realtime_candidate_entry now db e p i hi
  refine ⟨e, hfind, c, hc, ?_⟩
  rw [hget]
  cases hon : isElectionOngoing now e <;> simp [maskCandidate, hon]

/-- Witness for C6: on the tally fixture, the ongoing query at time 15
masks the top candidate as "Candidate 1" with empty last name while the
closed query at time 25 disclosed real names; the disclosure conclusion is
instantiated at rank 0. -/
theorem claim6_witness :
    getElectionRealtime 15 exTallyDB "s2" =
      some (realtimePositions 15 exTallyDB exTallyElection) ∧
    realtimePosition 15 exTallyDB exTallyElection exTallyPos ∈
      realtimePositions 15 exTallyDB exTallyElection ∧
    ((realtimePosition 15 exTallyDB exTallyElection exTallyPos).candidates.map
      (fun c => c.first_name) = ["Candidate 1", "Candidate 2", "Candidate 3"]) ∧
    ((realtimePosition 25 exTallyDB exTallyElection exTallyPos).candidates.map
      (fun c => c.first_name) = ["Bob", "Carol", "Alice"]) ∧
    (∃ e, exTallyDB.elections.find?
        (fun x => x.slug == "s2" && !x.deleted) = some e ∧
      ∃ c ∈ exTallyDB.candidates,
        ((realtimePosition 15 exTallyDB exTallyElection
            exTallyPos).candidates.get ⟨0, by decide⟩).id = c.id ∧
        ((realtimePosition 15 exTallyDB exTallyElection
            exTallyPos).candidates.get ⟨0, by decide⟩).vote =
          candidateVoteCount exTallyDB c.id ∧
        (isElectionOngoing 15 e = true →
          ((realtimePosition 15 exTallyDB exTallyElection
              exTallyPos).candidates.get ⟨0, by decide⟩).first_name =
              "Candidate " ++ toString (0 + 1) ∧
            ((realtimePosition 15 exTallyDB exTallyElection
              exTallyPos).candidates.get ⟨0, by decide⟩).last_name = "" ∧
            ((realtimePosition 15 exTallyDB exTallyElection
              exTallyPos).candidates.get ⟨0, by decide⟩).middle_name = some "") ∧
        (isElectionOngoing 15 e = false →
          ((realtimePosition 15 exTallyDB exTallyElection
              exTallyPos).candidates.get ⟨0, by decide⟩).first_name =
              c.first_name ∧
            ((realtimePosition 15 exTallyDB exTallyElection
              exTallyPos).candidates.get ⟨0, by decide⟩).last_name =
              c.last_name ∧
            ((realtimePosition 15 exTallyDB exTallyElection
              exTallyPos).candidates.get ⟨0, by decide⟩).middle_name =
              c.middle_name)) :=
  ⟨rfl, by decide, by decide, by decide,
   claim6_disclosure 15 exTallyDB "s2"
     (realtimePositions 15 exTallyDB exTallyElection)
     (realtimePosition 15 exTallyDB exTallyElection exTallyPos) 0 rfl
     (by decide) (by decide)⟩

/-- Counterexample to C7: in `exC7DB` the single position's only ballot line
is a vote for its candidate c7, so the claim's abstention-inclusive ballot
count is 1; yet the realtime result reports the position total as 0,
because candidate-vote rows carry no position_id and the position's `votes`
relation therefore counts only abstentions. -/
theorem claim7_counterexample :
    claimedPositionTotal exC7DB exC7Pos = 1 ∧
    getElectionRealtime 15 exC7DB "s7" =
      some [⟨"p7", "Pres", 0,
        [⟨"c7", "Candidate 1", "", some "", 1⟩]⟩] := by
  constructor
  · rfl
  · rfl

/-- Claim C7 as amended: the reported total for a position equals the
number of Vote rows carrying that position's id - which are exactly the
explicit abstention rows, since candidate-vote rows carry no position_id -
and each candidate entry's count equals the number of Vote rows referencing
that candidate. -/
theorem claim7_amended_totals (now : Nat) (db : DB) (slug : String)
    (res : List RealtimePosition) (entry : RealtimePosition)
    (h : getElectionRealtime now db slug = some res) (hentry : entry ∈ res) :
    ∃ e, db.elections.find? (fun x => x.slug == slug && !x.deleted) = some e ∧
      ∃ p, p ∈ db.positions ∧ p.election_id = e.id ∧ p.deleted = false ∧
        entry.id = p.id ∧
        entry.votes =
          (db.votes.filter (fun v => v.position_id == some p.id)).length ∧
        ∀ i (hi : i < entry.candidates.length), ∃ c ∈ db.candidates,
          (entry.candidates.get ⟨i, hi⟩).id = c.id ∧
          (entry.candidates.get ⟨i, hi⟩).vote =
            (db.votes.filter (fun v => v.candidate_id == some c.id)).length := by
  obtain ⟨e, hfind, rfl⟩ := getElectionRealtime_inv h
  obtain ⟨p, hp, hpe, hpd, rfl⟩ := mem_realtimePositions hentry
  refine ⟨e, hfind, p, hp, hpe, hpd, rfl, rfl, ?_⟩
  intro i hi
  obtain ⟨c, hc, _, _, _, hget⟩ := realtime_candidate_entry now db e p i hi
  exact ⟨c, hc, by rw [hget]; rfl, by rw [hget]; rfl⟩

/-- Witness for C7's amended claim: on the tally fixture the position total
is 1 (its single abstention row) even though its candidates hold 23 votes,
and the amended characterization is instantiated. -/
theorem claim7_witness :
    getElectionRealtime 15 exTallyDB "s2" =
      some (realtimePositions 15 exTallyDB exTallyElection) ∧
    realtimePosition 15 exTallyDB exTallyElection exTallyPos ∈
      realtimePositions 15 exTallyDB exTallyElection ∧
    (realtimePosition 15 exTallyDB exTallyElection exTallyPos).votes = 1 ∧
    (∃ e, exTallyDB.elections.find?
        (fun x => x.slug == "s2" && !x.deleted) = some e ∧
      ∃ p, p ∈ exTallyDB.positions ∧ p.election_id = e.id ∧
        p.deleted = false ∧
        (realtimePosition 15 exTallyDB exTallyElection exTallyPos).id = p.id ∧
        (realtimePosition 15 exTallyDB exTallyElection exTallyPos).votes =
          (exTallyDB.votes.filter
            (fun v => v.position_id == some p.id)).length ∧
        ∀ i (hi : i < (realtimePosition 15 exTallyDB exTallyElection
            exTallyPos).candidates.length),
          ∃ c ∈ exTallyDB.candidates,
            ((realtimePosition 15 exTallyDB exTallyElection
              exTallyPos).candidates.get ⟨i, hi⟩).id = c.id ∧
            ((realtimePosition 15 exTallyDB exTallyElection
              exTallyPos).candidates.get ⟨i, hi⟩).vote =
              (exTallyDB.votes.filter
                (fun v => v.candidate_id == some c.id)).length) :=
  ⟨rfl, by decide, by decide,
   claim7_amended_totals 15 exTallyDB "s2"
     (realtimePositions 15 exTallyDB exTallyElection)
     (realtimePosition 15 exTallyDB exTallyElection exTallyPos) rfl
     (by decide)⟩

/-- Claim C8: within every position of the realtime result the candidate
entries are ordered by descending vote count, and entries with equal counts
keep the relative order of the input candidate list (stable sort, no
secondary tie-break key). -/
theorem claim8_ranking_stable (now : Nat) (db : DB) (slug : String)
    (res : List RealtimePosition) (entry : RealtimePosition)
    (h : getElectionRealtime now db slug = some res) (hentry : entry ∈ res) :
    ∃ e, db.elections.find? (fun x => x.slug == slug && !x.deleted) = some e ∧
      ∃ p, p ∈ db.positions ∧ entry.id = p.id ∧
        (entry.candidates.map (fun c => c.vote)).Pairwise
          (fun a b => b ≤ a) ∧
        ∀ k, ((entry.candidates.filter (fun c => c.vote == k)).map
            (fun c => c.id)) =
          (((talliedCandidates db e p).filter (fun t => t.voteCount == k)).map
            (fun t => t.cand.id)) := by
  obtain ⟨e, hfind, rfl⟩ := getElectionRealtime_inv h
  obtain ⟨p, hp, hpe, hpd, rfl⟩ := mem_realtimePositions hentry
  refine ⟨e, hfind, p, hp, rfl, ?_, ?_⟩
  · show ((maskCandidates (isElectionOngoing now e) 0
      (stableSortBy candPrecedes (talliedCandidates db e p))).map
        (fun c => c.vote)).Pairwise (fun a b => b ≤ a)
    rw [map_vote_maskCandidates]
    exact List.Pairwise.map _ (fun a b hab => hab)
      (pairwise_stableSortBy_cand (talliedCandidates db e p))
  · intro k
    show ((maskCandidates (isElectionOngoing now e) 0
      (stableSortBy candPrecedes (talliedCandidates db e p))).filter
        (fun c => c.vote == k)).map (fun c => c.id) = _
    rw [filter_map_id_maskCandidates, filter_stableSortBy_cand]

/-- Witness for C8: on the tally fixture with counts A:5, B:9, C:9 and
input order A, B, C, the realtime entry lists (id, count) pairs in order
B:9, C:9, A:5 - tied B and C keep their input order and precede A - and the
ranking conclusion is instantiated. -/
theorem claim8_witness :
    getElectionRealtime 15 exTallyDB "s2" =
      some (realtimePositions 15 exTallyDB exTallyElection) ∧
    realtimePosition 15 exTallyDB exTallyElection exTallyPos ∈
      realtimePositions 15 exTallyDB exTallyElection ∧
    ((realtimePosition 15 exTallyDB exTallyElection exTallyPos).candidates.map
      (fun c => (c.id, c.vote)) = [("B", 9), ("C", 9), ("A", 5)]) ∧
    (∃ e, exTallyDB.elections.find?
        (fun x => x.slug == "s2" && !x.deleted) = some e ∧
      ∃ p, p ∈ exTallyDB.positions ∧
        (realtimePosition 15 exTallyDB exTallyElection exTallyPos).id = p.id ∧
        ((realtimePosition 15 exTallyDB exTallyElection
          exTallyPos).candidates.map (fun c => c.vote)).Pairwise
            (fun a b => b ≤ a) ∧
        ∀ k, (((realtimePosition 15 exTallyDB exTallyElection
            exTallyPos).candidates.filter (fun c => c.vote == k)).map
              (fun c => c.id)) =
          (((talliedCandidates exTallyDB e p).filter
            (fun t => t.voteCount == k)).map (fun t => t.cand.id))) :=
  ⟨rfl, by decide, by decide,
   claim8_ranking_stable 15 exTallyDB "s2"
     (realtimePositions 15 exTallyDB exTallyElection)
     (realtimePosition 15 exTallyDB exTallyElection exTallyPos) rfl
     (by decide)⟩

/-- Counterexample to C9: editing a position sets its order to the number
of the election's position rows; editing both positions of `exPosDB` (which
start with distinct orders 0 and 1) gives each the order 2, so the second
edit assigns an order already held by a different position of the same
election and pairwise distinctness is lost. -/
theorem claim9_counterexample :
    ((editPosition (editPosition exPosDB "PA" "Pres" none none none "e3")
        "PB" "VP" none none none "e3").positions.map
          (fun p => (p.id, p.election_id, p.order))) =
      [("PA", "e3", 2), ("PB", "e3", 2)] ∧
    ¬ ordersDistinct (editPosition (editPosition exPosDB "PA" "Pres" none
        none none "e3") "PB" "VP" none none none "e3") "e3" := by
  constructor
  · rfl
  · unfold ordersDistinct
    decide

/-- Claim C9 as amended: creating a position preserves order uniqueness on
every state whose orders are pairwise distinct and below the election's
position-row count (as in any state reached by creations alone; the fresh
order equals the row count), but editing a position can duplicate an
existing order, so uniqueness is not preserved by every edit. -/
theorem claim9_amended_create_preserves_unique (db : DB) (name : String)
    (min max : Option Nat) (electionId newId : String)
    (hd : ordersDistinct db electionId) (hb : ordersBounded db electionId) :
    ordersDistinct (createPosition db name min max electionId newId)
        electionId ∧
      ordersBounded (createPosition db name min max electionId newId)
        electionId := by
  have hfil : (createPosition db name min max electionId
      newId).positions.filter (fun p => p.election_id == electionId) =
      db.positions.filter (fun p => p.election_id == electionId) ++
        [⟨newId, name, none,
          (db.positions.filter (fun p => p.election_id == electionId)).length,
          min.getD 0, max.getD 1, electionId, false⟩] := by
    show (db.positions ++ [_]).filter _ = _
    rw [List.filter_append]
    congr 1
    simp [List.filter]
  unfold ordersDistinct ordersBounded at *
  rw [hfil]
  constructor
  · rw [List.pairwise_append]
    refine ⟨hd, List.pairwise_singleton _ _, ?_⟩
    intro q hq r hr
    have hrr : r = ⟨newId, name, none,
        (db.positions.filter (fun p => p.election_id == electionId)).length,
        min.getD 0, max.getD 1, electionId, false⟩ := by
      simpa using hr
    subst hrr
    have hqb := hb q hq
    dsimp only
    omega
  · intro q hq
    rw [List.length_append]
    rcases List.mem_append.mp hq with hq | hq
    · have := hb q hq
      simp only [List.length_singleton]
      omega
    · have hqq : q = ⟨newId, name, none,
          (db.positions.filter (fun p => p.election_id == electionId)).length,
          min.getD 0, max.getD 1, electionId, false⟩ := by
        simpa using hq
      subst hqq
      dsimp only
      simp only [List.length_singleton]
      omega

/-- Witness for C9's amended claim: `exPosDB` has distinct, bounded orders
0 and 1, and creating a third position (which gets order 2) keeps them
pairwise distinct and bounded. -/
theorem claim9_witness :
    ordersDistinct exPosDB "e3" ∧ ordersBounded exPosDB "e3" ∧
    (ordersDistinct (createPosition exPosDB "Sec" none none "e3" "PC")
        "e3" ∧
      ordersBounded (createPosition exPosDB "Sec" none none "e3" "PC")
        "e3") :=
  ⟨by unfold ordersDistinct; decide, by unfold ordersBounded; decide,
   claim9_amended_create_preserves_unique exPosDB "Sec" none none "e3" "PC"
     (by unfold ordersDistinct; decide) (by unfold ordersBounded; decide)⟩

end Eboto
